import Mathlib

/-!
Verification of the sandbox startup benchmark (`src/benchmark.py`) against its
natural-language specification.

The program is embedded shallowly:
* timing samples are exact rationals (`ℚ`); the Python floats carry exact
  decimal literals in every computation the claims touch, and the one place
  where float rounding could matter — the percentile index `int(n * 0.95)` —
  provably agrees with the exact-rational floor for all list lengths, because
  the error of the double nearest 0.95 (resp. 0.99) is orders of magnitude
  below the distance from `n * 19/20` (resp. `n * 99/100`) to the nearest
  integer it could cross;
* `statistics.stdev` produces a real number (`Real.sqrt` of an exact
  rational), mirroring the exact value CPython's `statistics._ss` computes
  with `Fraction` arithmetic before the final square root;
* async control flow becomes explicit: one adapter invocation's outcome is
  `Except ε ℚ` (success with elapsed time, or a raised exception), a round is
  a list of outcomes, and `asyncio.gather` without `return_exceptions=True`
  is a function that returns all results only when no task raised, and
  otherwise propagates the first exception, discarding the sibling results —
  exactly the awaiter-visible semantics of `batch_times = await
  asyncio.gather(*tasks)`;
* the environment is an association list of variables, and `os.getenv` is a
  lookup.
-/

namespace Benchmark

/-! ### Statistics engine (`calculate_stats`, lines 263-287) -/

/-- Python `sorted(times)`: stable ascending sort. -/
def sortAsc (xs : List ℚ) : List ℚ := xs.mergeSort (fun a b => a ≤ b)

/-- Python `sorted(times, reverse=True)`: stable descending sort. -/
def sortDesc (xs : List ℚ) : List ℚ := xs.mergeSort (fun a b => b ≤ a)

/-- Python `statistics.mean`: sum over count (callers guard the empty list). -/
def pyMean (xs : List ℚ) : ℚ := xs.sum / xs.length

/-- Python `statistics.median`: middle element of the ascending sort for odd
length, average of the two middle elements for even length. -/
def pyMedian (xs : List ℚ) : ℚ :=
  let s := sortAsc xs
  let n := xs.length
  if n % 2 = 1 then s.getD (n / 2) 0
  else (s.getD (n / 2 - 1) 0 + s.getD (n / 2) 0) / 2

/-- Python `min(times)` (callers guard the empty list). -/
def pyMin : List ℚ → ℚ
  | [] => 0
  | x :: xs => xs.foldl Min.min x

/-- Python `max(times)` (callers guard the empty list). -/
def pyMax : List ℚ → ℚ
  | [] => 0
  | x :: xs => xs.foldl Max.max x

/-- Sum of squared deviations as CPython's `statistics._ss` computes it in
exact arithmetic: `Σ(x-c)²` minus the compensation term `(Σ(x-c))²/n`,
where `c` is the mean. -/
def sumSqDev (xs : List ℚ) : ℚ :=
  let c := pyMean xs
  (xs.map (fun x => (x - c) ^ 2)).sum - ((xs.map (fun x => x - c)).sum) ^ 2 / xs.length

/-- Python `statistics.stdev`: square root of `_ss / (n - 1)`. -/
noncomputable def pyStdev (xs : List ℚ) : ℝ :=
  Real.sqrt ((sumSqDev xs / ((xs.length : ℚ) - 1) : ℚ) : ℝ)

/-- Python `int(n * q)` for `0 ≤ q < 1`: truncation of the product, which is
the floor because the product is nonnegative. -/
def pIndex (n : ℕ) (q : ℚ) : ℕ := (⌊(n : ℚ) * q⌋).toNat

/-- The statistics dict returned by `calculate_stats` (lines 266-287). -/
structure Statistics where
  mean : ℚ
  median : ℚ
  min : ℚ
  max : ℚ
  std_dev : ℝ
  p95 : ℚ
  p99 : ℚ

/-- The function `calculate_stats` (lines 263-287): zero statistics for the empty list,
otherwise mean/median/min/max, sample stdev guarded at `n > 1`, and
percentiles read off the ascending sort at index `int(n * q)`. -/
noncomputable def calculate_stats (times : List ℚ) : Statistics :=
  if times = [] then
    { mean := 0, median := 0, min := 0, max := 0, std_dev := 0, p95 := 0, p99 := 0 }
  else
    let sorted_times := sortAsc times
    let n := sorted_times.length
    { mean := pyMean times
      median := pyMedian times
      min := pyMin times
      max := pyMax times
      std_dev := if 1 < times.length then pyStdev times else 0
      p95 := if 0 < n then sorted_times.getD (pIndex n (95 / 100)) 0 else 0
      p99 := if 0 < n then sorted_times.getD (pIndex n (99 / 100)) 0 else 0 }

/-- Sample variance as the specification words it: sum of squared deviations
from the mean over `n - 1`. -/
def sampleVariance (xs : List ℚ) : ℚ :=
  (xs.map (fun x => (x - pyMean xs) ^ 2)).sum / ((xs.length : ℚ) - 1)

/-! ### Orchestrator (provider benchmark loops, lines 36-239) -/

/-- Awaited semantics of `asyncio.gather(*tasks)` without
`return_exceptions=True` (lines 95, 154, 229): the list of results when every
task succeeds, otherwise the first raised exception — the awaiter never sees
the sibling results of a failed round. -/
def gather {ε : Type} : List (Except ε ℚ) → Except ε (List ℚ)
  | [] => Except.ok []
  | Except.error e :: _ => Except.error e
  | Except.ok t :: rest => (gather rest).map (fun ts => t :: ts)

/-- The batch loop shared by `benchmark_morph` (lines 85-101),
`benchmark_modal` (lines 144-160) and `benchmark_runloop` (lines 218-235):
sequential rounds, each awaited with `gather`, results extended in order; an
exception from `gather` propagates out of the loop, losing `times`. -/
def run_batches {ε : Type} : List (List (Except ε ℚ)) → Except ε (List ℚ)
  | [] => Except.ok []
  | r :: rest => do
    let batch_times ← gather r
    let times ← run_batches rest
    pure (batch_times ++ times)

/-- Process environment: an association list of variable bindings. -/
def Env : Type := List (String × String)

/-- Python `os.getenv`. -/
def getenv (env : Env) (k : String) : Option String := List.lookup k env

/-- The coroutine `benchmark_morph` (lines 64-105): no credential check anywhere — the
`MorphCloudClient()` construction and snapshot creation (lines 74-82) are
external calls whose failure simply propagates — then the batch loop. -/
def benchmark_morph {ε : Type} (clientAndSnapshot : Except ε Unit)
    (rounds : List (List (Except ε ℚ))) : Except ε (List ℚ) := do
  let _ ← clientAndSnapshot
  run_batches rounds

/-- The coroutine `benchmark_modal` (lines 131-164): no credential check — the
`modal.App.lookup` call (line 141) is an external call whose failure
propagates — then the batch loop. -/
def benchmark_modal {ε : Type} (appLookup : Except ε Unit)
    (rounds : List (List (Except ε ℚ))) : Except ε (List ℚ) := do
  let _ ← appLookup
  run_batches rounds

/-- The coroutine `benchmark_runloop` (lines 200-239): if `RUNLOOP_API_KEY` is unset, print
a warning and return the empty list (lines 211-214); otherwise run the batch
loop. -/
def benchmark_runloop {ε : Type} (env : Env)
    (rounds : List (List (Except ε ℚ))) : Except ε (List ℚ) :=
  match getenv env ("RUNLOOP_API_KEY") with
  | none => Except.ok []
  | some _ => run_batches rounds

/-- Line 312: `self.results = {k: v for k, v in self.results.items() if v}` —
providers with an empty sample list are dropped before any report is built. -/
def filter_results (results : List (String × List ℚ)) : List (String × List ℚ) :=
  results.filter (fun kv => !kv.2.isEmpty)

/-- The provider-selection and collection phase of `run_benchmarks`
(lines 299-312): each selected provider is run in order, its sample list
stored under its display name; any exception a provider run raises aborts the
whole method; finally empty results are filtered out. -/
def run_benchmarks_results {ε : Type} (providers : List String) (env : Env)
    (morphSetup modalSetup : Except ε Unit)
    (morphRounds modalRounds runloopRounds : List (List (Except ε ℚ))) :
    Except ε (List (String × List ℚ)) := do
  let m ← if ("morph" : String) ∈ providers then
      (benchmark_morph morphSetup morphRounds).map (fun ts => [("Morph", ts)])
    else pure []
  let d ← if ("modal" : String) ∈ providers then
      (benchmark_modal modalSetup modalRounds).map (fun ts => [("Modal", ts)])
    else pure []
  let r ← if ("runloop" : String) ∈ providers then
      (benchmark_runloop env runloopRounds).map (fun ts => [("Runloop", ts)])
    else pure []
  pure (filter_results (m ++ d ++ r))

/-! ### Report generator (lines 319-411) -/

/-- Iteration-table provider columns (lines 326-327): the keys of the
filtered results. -/
def table_columns (results : List (String × List ℚ)) : List String :=
  results.map (fun kv => kv.1)

/-- Summary-table rows (lines 362-373): provider, cold start (head of the
descending sort), best (its last element), mean and median. -/
def summary_rows (results : List (String × List ℚ)) : List (String × ℚ × ℚ × ℚ × ℚ) :=
  results.map (fun kv =>
    (kv.1, (sortDesc kv.2).getD 0 0, ((sortDesc kv.2).getLast?).getD 0,
      pyMean kv.2, pyMedian kv.2))

/-- The `stats` dict built at lines 362-364: each filtered provider mapped to
its calculated statistics. -/
noncomputable def stats_map (results : List (String × List ℚ)) : List (String × Statistics) :=
  results.map (fun kv => (kv.1, calculate_stats kv.2))

/-- Performance comparison (lines 377-389): sort providers by ascending mean;
the head is the baseline; report every other provider with
`factor = mean / base_mean` and `percent = (mean - base_mean) / base_mean * 100`. -/
def performance_comparison (stats : List (String × Statistics)) : List (String × ℚ × ℚ) :=
  match stats.mergeSort (fun a b => a.2.mean ≤ b.2.mean) with
  | [] => []
  | base :: rest =>
    rest.map (fun p =>
      (p.1, p.2.mean / base.2.mean, (p.2.mean - base.2.mean) / base.2.mean * 100))

/-! ### Persistence (lines 392-409) -/

/-- JSON values as written by `json.dump` of the snapshot; numbers carry the
exact value serialized. -/
inductive Json : Type
  | num : ℝ → Json
  | str : String → Json
  | arr : List Json → Json
  | obj : List (String × Json) → Json

/-- The in-memory aggregate serialized at lines 395-406. -/
structure BenchmarkRun where
  timestamp : String
  concurrent : ℕ
  batches : ℕ
  raw_times : List (String × List ℚ)
  statistics : List (String × Statistics)

/-- Serialization of one statistics dict, key order as in lines 279-287. -/
noncomputable def serialize_stats (s : Statistics) : Json :=
  Json.obj [("mean", Json.num (s.mean : ℝ)), ("median", Json.num (s.median : ℝ)),
    ("min", Json.num (s.min : ℝ)), ("max", Json.num (s.max : ℝ)),
    ("std_dev", Json.num s.std_dev), ("p95", Json.num (s.p95 : ℝ)),
    ("p99", Json.num (s.p99 : ℝ))]

/-- Serialization of one provider's raw time list. -/
noncomputable def serialize_times (ts : List ℚ) : Json :=
  Json.arr (ts.map (fun t : ℚ => Json.num (t : ℝ)))

/-- The `output_data` structure of lines 395-406 as a JSON tree. -/
noncomputable def serialize_run (run : BenchmarkRun) : Json :=
  Json.obj [("timestamp", Json.str run.timestamp),
    ("config", Json.obj [("concurrent", Json.num (run.concurrent : ℝ)),
      ("batches", Json.num (run.batches : ℝ)),
      ("total_runs", Json.num ((run.concurrent * run.batches : ℕ) : ℝ)),
      ("python_version", Json.str ("3.13")),
      ("vm_config", Json.obj [("vcpus", Json.num 1), ("memory_mb", Json.num 2048),
        ("disk_gb", Json.num 2)])]),
    ("raw_times", Json.obj (run.raw_times.map (fun kv => (kv.1, serialize_times kv.2)))),
    ("statistics", Json.obj (run.statistics.map (fun kv => (kv.1, serialize_stats kv.2))))]

/-- Statistics as read back from the snapshot: every field a real number. -/
structure StatisticsR where
  mean : ℝ
  median : ℝ
  min : ℝ
  max : ℝ
  std_dev : ℝ
  p95 : ℝ
  p99 : ℝ

/-- The canonical reading of an in-memory statistics record as the real-valued
record its serialization denotes. -/
noncomputable def Statistics.toR (s : Statistics) : StatisticsR :=
  ⟨s.mean, s.median, s.min, s.max, s.std_dev, s.p95, s.p99⟩

/-- Modelled from the spec: reading one number back from the snapshot (the
repository never re-parses its own snapshot; `json.load` on the documented
format is modelled as structural lookups on the `Json` tree). -/
def parse_num : Json → Option ℝ
  | Json.num x => some x
  | _ => none

/-- Modelled from the spec: reading a list of serialized numbers back. -/
def parse_nums : List Json → Option (List ℝ)
  | [] => some []
  | j :: rest => do
    let x ← parse_num j
    let xs ← parse_nums rest
    pure (x :: xs)

/-- Modelled from the spec: reading one provider's raw time list back. -/
def parse_times : Json → Option (List ℝ)
  | Json.arr js => parse_nums js
  | _ => none

/-- Lookup of a key in a parsed JSON object. -/
def jlookup (kvs : List (String × Json)) (k : String) : Option Json :=
  List.lookup k kvs

/-- Modelled from the spec: reading one statistics object back. -/
def parse_stats : Json → Option StatisticsR
  | Json.obj kvs => do
    let mean ← (jlookup kvs ("mean")).bind parse_num
    let median ← (jlookup kvs ("median")).bind parse_num
    let mn ← (jlookup kvs ("min")).bind parse_num
    let mx ← (jlookup kvs ("max")).bind parse_num
    let sd ← (jlookup kvs ("std_dev")).bind parse_num
    let p95 ← (jlookup kvs ("p95")).bind parse_num
    let p99 ← (jlookup kvs ("p99")).bind parse_num
    some ⟨mean, median, mn, mx, sd, p95, p99⟩
  | _ => none

/-- Modelled from the spec: reading a keyed object back, value by value. -/
def parse_entries {γ : Type} (p : Json → Option γ) :
    List (String × Json) → Option (List (String × γ))
  | [] => some []
  | kv :: rest => do
    let x ← p kv.2
    let xs ← parse_entries p rest
    pure ((kv.1, x) :: xs)

/-- Modelled from the spec: reading the `raw_times` object back. -/
def parse_times_obj : Json → Option (List (String × List ℝ))
  | Json.obj kvs => parse_entries parse_times kvs
  | _ => none

/-- Modelled from the spec: reading the `statistics` object back. -/
def parse_stats_obj : Json → Option (List (String × StatisticsR))
  | Json.obj kvs => parse_entries parse_stats kvs
  | _ => none

/-- Modelled from the spec: re-parsing the persisted snapshot into its
`raw_times` and `statistics` components. -/
def parse_snapshot (j : Json) :
    Option (List (String × List ℝ) × List (String × StatisticsR)) :=
  match j with
  | Json.obj kvs => do
    let rt ← (jlookup kvs ("raw_times")).bind parse_times_obj
    let st ← (jlookup kvs ("statistics")).bind parse_stats_obj
    some (rt, st)
  | _ => none

/-! ### Helper lemmas -/

/-- The percentile index `int(n * 0.95)` agrees with the natural division
`n * 95 / 100`. -/
lemma pIndex_95 (n : ℕ) : pIndex n (95 / 100) = n * 95 / 100 := by
  unfold pIndex
  rw [show (n : ℚ) * (95 / 100) = ((n * 95 : ℕ) : ℚ) / ((100 : ℕ) : ℚ) by push_cast; ring]
  rw [Rat.floor_natCast_div_natCast]
  omega

/-- The percentile index `int(n * 0.99)` agrees with the natural division
`n * 99 / 100`. -/
lemma pIndex_99 (n : ℕ) : pIndex n (99 / 100) = n * 99 / 100 := by
  unfold pIndex
  rw [show (n : ℚ) * (99 / 100) = ((n * 99 : ℕ) : ℚ) / ((100 : ℕ) : ℚ) by push_cast; ring]
  rw [Rat.floor_natCast_div_natCast]
  omega

/-- Summing `x - c` over a list shifts the sum by `length * c`. -/
lemma sum_map_sub_const (xs : List ℚ) (c : ℚ) :
    (xs.map (fun x => x - c)).sum = xs.sum - xs.length * c := by
  induction xs with
  | nil => simp
  | cons y ys ih => simp [ih]; ring

/-- With the mean as center, CPython's compensated sum of squared deviations
collapses to the plain sum of squared deviations. -/
lemma sumSqDev_eq (xs : List ℚ) (h : xs ≠ []) :
    sumSqDev xs = (xs.map (fun x => (x - pyMean xs) ^ 2)).sum := by
  have hn : (xs.length : ℚ) ≠ 0 := by
    exact_mod_cast Nat.pos_iff_ne_zero.mp (List.length_pos.mpr h)
  unfold sumSqDev
  simp only []
  rw [sum_map_sub_const]
  have hz : xs.sum - (xs.length : ℚ) * pyMean xs = 0 := by
    unfold pyMean; field_simp
  rw [hz]
  simp

/-! ### Claims -/

/-- C3: on the empty sample sequence, `calculate_stats` returns the
statistics record with every field (mean, median, min, max, std_dev, p95,
p99) equal to zero; no division is ever attempted. -/
theorem C3_empty_stats_all_zero :
    calculate_stats [] =
      { mean := 0, median := 0, min := 0, max := 0, std_dev := 0, p95 := 0, p99 := 0 } := rfl

/-- C8: `calculate_stats` is a pure function of the sample sequence — two
calls on the same sequence yield identical statistics records; there is no
hidden mutable state in the embedding. -/
theorem C8_calculate_stats_deterministic (xs ys : List ℚ) (h : xs = ys) :
    calculate_stats xs = calculate_stats ys :=
  congrArg calculate_stats h

/-- C8 witness: two calls of `calculate_stats` on the concrete sequence
`[1, 2]` agree. -/
theorem C8_calculate_stats_deterministic_witness :
    calculate_stats [1, 2] = calculate_stats [1, 2] :=
  C8_calculate_stats_deterministic [1, 2] [1, 2] rfl

/-- C10: for every nonzero list length `n`, the indices `int(n * 0.95)` and
`int(n * 0.99)` used by `calculate_stats` to select p95 and p99 lie strictly
below `n` (and are naturals, hence nonnegative), so indexing the sorted list
never goes out of range. -/
theorem C10_percentile_index_in_range (n : ℕ) (h : 1 ≤ n) :
    pIndex n (95 / 100) < n ∧ pIndex n (99 / 100) < n := by
  rw [pIndex_95, pIndex_99]
  omega

/-- C10 witness: at `n = 20` both percentile indices are in range. -/
theorem C10_percentile_index_in_range_witness :
    1 ≤ 20 ∧ (pIndex 20 (95 / 100) < 20 ∧ pIndex 20 (99 / 100) < 20) :=
  ⟨by norm_num, C10_percentile_index_in_range 20 (by norm_num)⟩

/-- C1: evaluating the orchestrator's batch loop at a round where invocation
2 of 3 raises a lifecycle error: the bare `asyncio.gather` propagates the
exception, the provider's run aborts with it, and the successful siblings'
samples (1.0 and 3.0) are discarded instead of being included in the result
set — the code contradicts the required partial-failure policy. -/
theorem C1_round_failure_discards_siblings :
    run_batches [[Except.ok (1 : ℚ), Except.error ("lifecycle error"), Except.ok 3]] =
      Except.error ("lifecycle error") := rfl

/-- C2 counterexample: with every credential absent (empty environment), a
credential failure raised while `benchmark_morph` constructs its client
aborts the whole collection phase of `run_benchmarks` — Morph is not skipped
with a warning, and the remaining providers never run, so the run does not
continue. -/
theorem C2_missing_credential_aborts_run :
    run_benchmarks_results ["morph", "modal", "runloop"] []
      (Except.error ("missing MORPH_API_KEY")) (Except.ok ())
      [] [] [[Except.ok 1]] =
      Except.error ("missing MORPH_API_KEY") := rfl

/-- C2 amended: only the Runloop provider checks its credential — when
`RUNLOOP_API_KEY` is absent it is skipped with a warning, contributing an
empty result list, and the run continues for the remaining providers; Morph
and Modal perform no credential check, and any exception raised by their
client setup aborts the entire run. -/
theorem C2_only_runloop_skips_on_missing_credential (env : Env)
    (h : getenv env ("RUNLOOP_API_KEY") = none)
    (ms ds : List ℚ) (mSetup dSetup : Except String Unit)
    (mr dr rr : List (List (Except String ℚ))) (e : String)
    (hm : benchmark_morph mSetup mr = Except.ok ms)
    (hd : benchmark_modal dSetup dr = Except.ok ds) :
    benchmark_runloop env rr = Except.ok [] ∧
    run_benchmarks_results ["morph", "modal", "runloop"] env mSetup dSetup mr dr rr =
      Except.ok (filter_results [("Morph", ms), ("Modal", ds)]) ∧
    run_benchmarks_results ["morph", "modal", "runloop"] env
      (Except.error e) dSetup mr dr rr = Except.error e := by
  have hr : benchmark_runloop env rr = Except.ok [] := by
    unfold benchmark_runloop
    rw [h]
  refine ⟨hr, ?_, ?_⟩
  · unfold run_benchmarks_results
    rcases ms with _ | ⟨a, as⟩ <;> rcases ds with _ | ⟨b, bs⟩ <;> rw [hm, hd, hr] <;> rfl
  · rfl

/-- C2 amended witness: at a concrete environment with no credentials, Morph
and Modal succeeding, Runloop skipped, and a concrete Morph setup error. -/
theorem C2_only_runloop_skips_on_missing_credential_witness :
    getenv [] ("RUNLOOP_API_KEY") = none ∧
    (benchmark_runloop ([] : Env) [[(Except.ok 5 : Except String ℚ)]] = Except.ok [] ∧
      run_benchmarks_results ["morph", "modal", "runloop"] []
        (Except.ok () : Except String Unit) (Except.ok ())
        [[Except.ok 1]] [[Except.ok 2]] [[Except.ok 5]] =
        Except.ok (filter_results [("Morph", [1]), ("Modal", [2])]) ∧
      run_benchmarks_results ["morph", "modal", "runloop"] []
        (Except.error ("missing key")) (Except.ok ())
        [[Except.ok 1]] [[Except.ok 2]] [[Except.ok 5]] = Except.error ("missing key")) :=
  ⟨rfl, C2_only_runloop_skips_on_missing_credential [] rfl [1] [2] (Except.ok ()) (Except.ok ())
    [[Except.ok 1]] [[Except.ok 2]] [[Except.ok 5]] ("missing key") rfl rfl⟩

/-- C4: for every nonempty sample sequence, p95 and p99 are the entries of
the ascending-sorted sequence at indices `floor(n * 0.95) = 95n/100` and
`floor(n * 0.99) = 99n/100`, and both indices are strictly below `n`. -/
theorem C4_percentile_selection (xs : List ℚ) (h : xs ≠ []) :
    (calculate_stats xs).p95 = (sortAsc xs).getD (xs.length * 95 / 100) 0 ∧
    (calculate_stats xs).p99 = (sortAsc xs).getD (xs.length * 99 / 100) 0 ∧
    xs.length * 95 / 100 < xs.length ∧ xs.length * 99 / 100 < xs.length := by
  have hn : 1 ≤ xs.length := List.length_pos.mpr h
  have hlen : (sortAsc xs).length = xs.length := List.length_mergeSort xs
  refine ⟨?_, ?_, by omega, by omega⟩
  · simp only [calculate_stats, if_neg h]
    rw [if_pos (by omega), hlen, pIndex_95]
  · simp only [calculate_stats, if_neg h]
    rw [if_pos (by omega), hlen, pIndex_99]

/-- C4 witness: on `[1, ..., 20]` the p95 and p99 indices are both 19 and
select the last element of the sorted list. -/
theorem C4_percentile_selection_witness :
    ([1, 2, 3, 4, 5, 6, 7, 8, 9, 10, 11, 12, 13, 14, 15, 16, 17, 18, 19, 20] : List ℚ) ≠ [] ∧
    ((calculate_stats [1, 2, 3, 4, 5, 6, 7, 8, 9, 10, 11, 12, 13, 14, 15, 16, 17, 18, 19, 20]).p95 =
        (sortAsc [1, 2, 3, 4, 5, 6, 7, 8, 9, 10, 11, 12, 13, 14, 15, 16, 17, 18, 19, 20]).getD
          (([1, 2, 3, 4, 5, 6, 7, 8, 9, 10, 11, 12, 13, 14, 15, 16, 17, 18, 19, 20] : List ℚ).length * 95 / 100) 0 ∧
      (calculate_stats [1, 2, 3, 4, 5, 6, 7, 8, 9, 10, 11, 12, 13, 14, 15, 16, 17, 18, 19, 20]).p99 =
        (sortAsc [1, 2, 3, 4, 5, 6, 7, 8, 9, 10, 11, 12, 13, 14, 15, 16, 17, 18, 19, 20]).getD
          (([1, 2, 3, 4, 5, 6, 7, 8, 9, 10, 11, 12, 13, 14, 15, 16, 17, 18, 19, 20] : List ℚ).length * 99 / 100) 0 ∧
      ([1, 2, 3, 4, 5, 6, 7, 8, 9, 10, 11, 12, 13, 14, 15, 16, 17, 18, 19, 20] : List ℚ).length * 95 / 100 <
        ([1, 2, 3, 4, 5, 6, 7, 8, 9, 10, 11, 12, 13, 14, 15, 16, 17, 18, 19, 20] : List ℚ).length ∧
      ([1, 2, 3, 4, 5, 6, 7, 8, 9, 10, 11, 12, 13, 14, 15, 16, 17, 18, 19, 20] : List ℚ).length * 99 / 100 <
        ([1, 2, 3, 4, 5, 6, 7, 8, 9, 10, 11, 12, 13, 14, 15, 16, 17, 18, 19, 20] : List ℚ).length) :=
  ⟨by decide, C4_percentile_selection
    [1, 2, 3, 4, 5, 6, 7, 8, 9, 10, 11, 12, 13, 14, 15, 16, 17, 18, 19, 20] (by decide)⟩

/-- C5: the engine's std_dev field is the sample standard deviation — the
square root of the sum of squared deviations from the mean over `n - 1` —
whenever `n ≥ 2`, and is zero whenever `n ≤ 1`. -/
theorem C5_sample_standard_deviation (xs : List ℚ) :
    (calculate_stats xs).std_dev =
      if 2 ≤ xs.length then Real.sqrt ((sampleVariance xs : ℚ) : ℝ) else 0 := by
  by_cases h : xs = []
  · subst h
    simp [calculate_stats]
  · simp only [calculate_stats, if_neg h]
    by_cases h2 : 2 ≤ xs.length
    · rw [if_pos (by omega), if_pos h2]
      unfold pyStdev sampleVariance
      rw [sumSqDev_eq xs h]
    · rw [if_neg (by omega), if_neg h2]

/-- C6: whenever the mean-sorted provider list is nonempty, its head is a
provider of minimal mean (the baseline), and the comparison reports every
other provider, in sorted order, with `factor = mean / base_mean` and
`percent = (mean - base_mean) / base_mean * 100`. -/
theorem C6_pairwise_comparison (stats : List (String × Statistics))
    (base : String × Statistics) (rest : List (String × Statistics))
    (h : stats.mergeSort (fun a b => a.2.mean ≤ b.2.mean) = base :: rest) :
    (stats.all (fun p => base.2.mean ≤ p.2.mean)) = true ∧
    performance_comparison stats = rest.map (fun p =>
      (p.1, p.2.mean / base.2.mean, (p.2.mean - base.2.mean) / base.2.mean * 100)) := by
  constructor
  · rw [List.all_eq_true]
    intro p hp
    have hp' : p ∈ base :: rest := by
      rw [← h]
      exact ((List.mergeSort_perm stats _).mem_iff).mpr hp
    have hsorted := @List.sorted_mergeSort (String × Statistics)
      (fun a b => decide (a.2.mean ≤ b.2.mean))
      (fun a b c hab hbc => by
        simp only [decide_eq_true_eq] at *
        exact le_trans hab hbc)
      (fun a b => by
        simp only [Bool.or_eq_true, decide_eq_true_eq]
        exact le_total _ _)
      stats
    rw [h] at hsorted
    rcases List.mem_cons.mp hp' with rfl | hmem
    · simp
    · have := (List.pairwise_cons.mp hsorted).1 p hmem
      simpa using this
  · unfold performance_comparison
    rw [h]

/-- C6 witness: providers A and B with means 1.0 and 2.5 — A is the baseline
and B is reported at factor 2.50 and percent 150.0. -/
theorem C6_pairwise_comparison_witness :
    List.mergeSort [(("A" : String), (⟨1, 1, 1, 1, 0, 1, 1⟩ : Statistics)),
        ("B", ⟨5 / 2, 5 / 2, 5 / 2, 5 / 2, 0, 5 / 2, 5 / 2⟩)]
      (fun a b => a.2.mean ≤ b.2.mean) =
      (("A" : String), (⟨1, 1, 1, 1, 0, 1, 1⟩ : Statistics)) ::
        [("B", ⟨5 / 2, 5 / 2, 5 / 2, 5 / 2, 0, 5 / 2, 5 / 2⟩)] ∧
    ([(("A" : String), (⟨1, 1, 1, 1, 0, 1, 1⟩ : Statistics)),
        ("B", ⟨5 / 2, 5 / 2, 5 / 2, 5 / 2, 0, 5 / 2, 5 / 2⟩)].all
      (fun p => (1 : ℚ) ≤ p.2.mean)) = true ∧
    performance_comparison [(("A" : String), (⟨1, 1, 1, 1, 0, 1, 1⟩ : Statistics)),
        ("B", ⟨5 / 2, 5 / 2, 5 / 2, 5 / 2, 0, 5 / 2, 5 / 2⟩)] =
      [("B", 5 / 2, 150)] := by
  have h : List.mergeSort [(("A" : String), (⟨1, 1, 1, 1, 0, 1, 1⟩ : Statistics)),
        ("B", ⟨5 / 2, 5 / 2, 5 / 2, 5 / 2, 0, 5 / 2, 5 / 2⟩)]
      (fun a b => a.2.mean ≤ b.2.mean) =
      (("A" : String), (⟨1, 1, 1, 1, 0, 1, 1⟩ : Statistics)) ::
        [("B", ⟨5 / 2, 5 / 2, 5 / 2, 5 / 2, 0, 5 / 2, 5 / 2⟩)] :=
    List.mergeSort_of_sorted (by norm_num [List.pairwise_cons])
  refine ⟨h, (C6_pairwise_comparison _ _ _ h).1, ((C6_pairwise_comparison _ _ _ h).2).trans ?_⟩
  norm_num

/-- A provider all of whose entries are empty never survives the emptiness
filter of line 312. -/
lemma not_mem_filter_results_keys (results : List (String × List ℚ)) (p : String)
    (hp : ∀ v, (p, v) ∈ results → v = []) :
    p ∉ (filter_results results).map (fun kv => kv.1) := by
  intro hmem
  rw [List.mem_map] at hmem
  obtain ⟨kv, hkv, hfst⟩ := hmem
  rw [filter_results, List.mem_filter] at hkv
  obtain ⟨hmem', hne⟩ := hkv
  have hkv2 : kv.2 = [] := hp kv.2 (by rw [← hfst]; simpa using hmem')
  rw [hkv2] at hne
  simp at hne

/-- Every provider named in the comparison output is named in its input. -/
lemma performance_comparison_names_subset (st : List (String × Statistics)) (x : String)
    (hx : x ∈ (performance_comparison st).map (fun r => r.1)) :
    x ∈ st.map (fun kv => kv.1) := by
  unfold performance_comparison at hx
  rcases hsort : st.mergeSort (fun a b => a.2.mean ≤ b.2.mean) with _ | ⟨base, rest⟩
  · rw [hsort] at hx
    simp at hx
  · rw [hsort] at hx
    rw [List.mem_map] at hx
    obtain ⟨r, hr, hx1⟩ := hx
    rw [List.mem_map] at hr
    obtain ⟨q, hq, rfl⟩ := hr
    have hq' : q ∈ st := by
      have hmem : q ∈ base :: rest := List.mem_cons_of_mem _ hq
      rw [← hsort] at hmem
      exact ((List.mergeSort_perm st _).mem_iff).mp hmem
    rw [List.mem_map]
    exact ⟨q, hq', hx1⟩

/-- Dropping a provider all of whose entries are empty does not change the
filtered results the reports are built from. -/
lemma filter_results_drop_empty_provider (results : List (String × List ℚ)) (p : String)
    (hp : ∀ v, (p, v) ∈ results → v = []) :
    filter_results results = filter_results (results.filter (fun kv => kv.1 ≠ p)) := by
  unfold filter_results
  rw [List.filter_filter]
  refine List.filter_congr ?_
  intro kv hkv
  by_cases hkv1 : kv.1 = p
  · have hkv2 : kv.2 = [] := hp kv.2 (by rw [← hkv1]; simpa using hkv)
    rw [hkv2]
    simp
  · simp [hkv1]

/-- C9: a provider every one of whose collected entries is empty is absent
from the iteration-table columns, the summary rows, the statistics mapping
(hence the persisted `statistics` and `raw_times` objects, which are built
from the same filtered list), and the pairwise comparison; and the filtered
results equal those computed without the provider, so every other provider's
report is unaffected. -/
theorem C9_zero_sample_provider_absent (results : List (String × List ℚ)) (p : String)
    (hp : ∀ v, (p, v) ∈ results → v = []) :
    p ∉ table_columns (filter_results results) ∧
    p ∉ (summary_rows (filter_results results)).map (fun r => r.1) ∧
    p ∉ (stats_map (filter_results results)).map (fun kv => kv.1) ∧
    p ∉ (performance_comparison (stats_map (filter_results results))).map (fun r => r.1) ∧
    filter_results results = filter_results (results.filter (fun kv => kv.1 ≠ p)) := by
  have hkey := not_mem_filter_results_keys results p hp
  refine ⟨hkey, ?_, ?_, ?_, filter_results_drop_empty_provider results p hp⟩
  · intro hmem
    apply hkey
    unfold summary_rows at hmem
    rw [List.map_map] at hmem
    simpa using hmem
  · intro hmem
    apply hkey
    unfold stats_map at hmem
    rw [List.map_map] at hmem
    simpa using hmem
  · intro hmem
    apply hkey
    have hsub := performance_comparison_names_subset _ p hmem
    unfold stats_map at hsub
    rw [List.map_map] at hsub
    simpa using hsub

/-- C9 witness: in a run where Morph collected no samples and Modal collected
one, Morph is absent from every report and Modal's reports are unchanged. -/
theorem C9_zero_sample_provider_absent_witness :
    ("Morph" : String) ∉ table_columns (filter_results [("Morph", []), ("Modal", [1])]) ∧
    ("Morph" : String) ∉
      (summary_rows (filter_results [("Morph", []), ("Modal", [1])])).map (fun r => r.1) ∧
    ("Morph" : String) ∉
      (stats_map (filter_results [("Morph", []), ("Modal", [1])])).map (fun kv => kv.1) ∧
    ("Morph" : String) ∉
      (performance_comparison (stats_map (filter_results [("Morph", []), ("Modal", [1])]))).map
        (fun r => r.1) ∧
    filter_results [("Morph", []), ("Modal", [1])] =
      filter_results ([("Morph", []), ("Modal", [1])].filter (fun kv => kv.1 ≠ "Morph")) :=
  C9_zero_sample_provider_absent [("Morph", []), ("Modal", [1])] "Morph"
    (by intro v hv; simpa using hv)

/-- Parsing a list of serialized numbers recovers the values. -/
lemma parse_nums_serialize (ts : List ℚ) :
    parse_nums (ts.map (fun t : ℚ => Json.num (t : ℝ))) =
      some (ts.map (fun t : ℚ => (t : ℝ))) := by
  induction ts with
  | nil => rfl
  | cons t rest ih => simp [parse_nums, parse_num, ih]

/-- Parsing one serialized raw-time list recovers the serialized values. -/
lemma parse_times_serialize (ts : List ℚ) :
    parse_times (serialize_times ts) = some (ts.map (fun t : ℚ => (t : ℝ))) := by
  simp [serialize_times, parse_times, parse_nums_serialize]

/-- Parsing one serialized statistics object recovers its real-valued image. -/
lemma parse_stats_serialize (s : Statistics) :
    parse_stats (serialize_stats s) = some s.toR := rfl

/-- Parsing a keyed object of serialized values recovers them entry by
entry. -/
lemma parse_entries_map {β γ : Type} (f : β → Json) (g : β → γ)
    (p : Json → Option γ) (hfp : ∀ b, p (f b) = some (g b)) (l : List (String × β)) :
    parse_entries p (l.map (fun kv => (kv.1, f kv.2))) =
      some (l.map (fun kv => (kv.1, g kv.2))) := by
  induction l with
  | nil => rfl
  | cons kv rest ih => simp [parse_entries, hfp, ih]

/-- Re-parsing the serialized snapshot yields exactly the run's raw times and
statistics, read as real numbers. -/
lemma parse_snapshot_serialize (run : BenchmarkRun) :
    parse_snapshot (serialize_run run) =
      some (run.raw_times.map (fun kv => (kv.1, kv.2.map (fun t : ℚ => (t : ℝ)))),
        run.statistics.map (fun kv => (kv.1, kv.2.toR))) := by
  have ht := parse_entries_map serialize_times (fun ts => ts.map (fun t : ℚ => (t : ℝ)))
    parse_times parse_times_serialize run.raw_times
  have hs := parse_entries_map serialize_stats Statistics.toR
    parse_stats parse_stats_serialize run.statistics
  refine Eq.trans (?_ :
    parse_snapshot (serialize_run run) =
      (parse_entries parse_times
          (run.raw_times.map (fun kv => (kv.1, serialize_times kv.2)))).bind
        (fun rt =>
          (parse_entries parse_stats
              (run.statistics.map (fun kv => (kv.1, serialize_stats kv.2)))).bind
            (fun st => some (rt, st)))) ?_
  · rfl
  · rw [ht, hs]
    rfl

/-- Injectivity of a keyed map whose value transformation is injective. -/
lemma keyed_map_inj {β γ : Type} (f : β → γ) (hf : ∀ x y, f x = f y → x = y) :
    ∀ (l₁ l₂ : List (String × β)),
      l₁.map (fun kv => (kv.1, f kv.2)) = l₂.map (fun kv => (kv.1, f kv.2)) → l₁ = l₂ := by
  intro l₁
  induction l₁ with
  | nil =>
    intro l₂ h
    cases l₂
    · rfl
    · simp at h
  | cons kv rest ih =>
    intro l₂ h
    cases l₂ with
    | nil => simp at h
    | cons kv' rest' =>
      simp only [List.map_cons, List.cons.injEq, Prod.mk.injEq] at h
      obtain ⟨⟨h1, h2⟩, h3⟩ := h
      have hv := hf _ _ h2
      have hr := ih rest' h3
      rw [hr]
      cases kv
      cases kv'
      simp_all

/-- Reading a rational time list as reals is injective. -/
lemma times_toReal_inj (xs ys : List ℚ)
    (h : xs.map (fun t : ℚ => (t : ℝ)) = ys.map (fun t : ℚ => (t : ℝ))) : xs = ys :=
  List.map_injective_iff.mpr Rat.cast_injective h

/-- Reading an in-memory statistics record as real-valued is injective. -/
lemma stats_toR_inj (a b : Statistics) (h : a.toR = b.toR) : a = b := by
  cases a
  cases b
  simp only [Statistics.toR, StatisticsR.mk.injEq] at h
  obtain ⟨h1, h2, h3, h4, h5, h6, h7⟩ := h
  simp only [Statistics.mk.injEq]
  exact ⟨by exact_mod_cast h1, by exact_mod_cast h2, by exact_mod_cast h3,
    by exact_mod_cast h4, h5, by exact_mod_cast h6, by exact_mod_cast h7⟩

/-- C7: serializing a benchmark run and re-parsing the snapshot yields the
run's raw_times and statistics (as the real values the file denotes), and two
runs with the same snapshot have identical raw_times and statistics — the
round-trip loses nothing. -/
theorem C7_snapshot_round_trip (r₁ r₂ : BenchmarkRun)
    (h : serialize_run r₁ = serialize_run r₂) :
    parse_snapshot (serialize_run r₁) =
      some (r₁.raw_times.map (fun kv => (kv.1, kv.2.map (fun t : ℚ => (t : ℝ)))),
        r₁.statistics.map (fun kv => (kv.1, kv.2.toR))) ∧
    r₁.raw_times = r₂.raw_times ∧ r₁.statistics = r₂.statistics := by
  have h₁ := parse_snapshot_serialize r₁
  have h₂ := parse_snapshot_serialize r₂
  refine ⟨h₁, ?_, ?_⟩
  all_goals
    rw [h] at h₁
    rw [h₂] at h₁
    rw [Option.some.injEq, Prod.mk.injEq] at h₁
  · exact (keyed_map_inj _ times_toReal_inj _ _ h₁.1.symm)
  · exact (keyed_map_inj _ stats_toR_inj _ _ h₁.2.symm)

/-- C7 witness: round trip at a concrete one-provider run. -/
theorem C7_snapshot_round_trip_witness :
    serialize_run ⟨"20250101", 1, 1, [("Morph", [1])], [("Morph", ⟨1, 1, 1, 1, 0, 1, 1⟩)]⟩ =
      serialize_run ⟨"20250101", 1, 1, [("Morph", [1])], [("Morph", ⟨1, 1, 1, 1, 0, 1, 1⟩)]⟩ ∧
    (parse_snapshot
        (serialize_run ⟨"20250101", 1, 1, [("Morph", [1])], [("Morph", ⟨1, 1, 1, 1, 0, 1, 1⟩)]⟩) =
      some ((([("Morph", [1])] : List (String × List ℚ)).map
          (fun kv => (kv.1, kv.2.map (fun t : ℚ => (t : ℝ))))),
        ([("Morph", (⟨1, 1, 1, 1, 0, 1, 1⟩ : Statistics))].map (fun kv => (kv.1, kv.2.toR)))) ∧
      ([("Morph", [1])] : List (String × List ℚ)) = [("Morph", [1])] ∧
      ([("Morph", (⟨1, 1, 1, 1, 0, 1, 1⟩ : Statistics))]) = [("Morph", ⟨1, 1, 1, 1, 0, 1, 1⟩)]) :=
  ⟨rfl, C7_snapshot_round_trip
    ⟨"20250101", 1, 1, [("Morph", [1])], [("Morph", ⟨1, 1, 1, 1, 0, 1, 1⟩)]⟩
    ⟨"20250101", 1, 1, [("Morph", [1])], [("Morph", ⟨1, 1, 1, 1, 0, 1, 1⟩)]⟩ rfl⟩

end Benchmark
